import Mathlib

/-!
Shallow embedding of the CourseProjMS repository (llanda2/CourseProjMS).

Source files embedded:
* `src/app.py` — module-level CSV load with alternate-filename fallback,
  `process_data` (year extraction via the regex `(\d{4})`, Total Victims sum,
  Full Location string, `mock_geocode` random coordinate assignment), and the
  `update_map` callback's year-range filter and incident count.
* `src/geocoding.py` — the batch geocoding run: batch file preparation, HTTP
  status check, result parsing and the pandas left merge on the id column.

Modelling conventions:
* A missing cell (pandas `NaN`) is `Option.none`; string interpolation of a
  missing cell renders as `"nan"`, as Python's f-string does for `float('nan')`.
* Geographic coordinates are rationals (`Rat`); `np.random.uniform(a, b)`
  draws are modelled as explicit per-row inputs (a `Draw` record), with the
  predicate `Draw.valid` recording the half-open ranges the numpy calls use.
* A pandas DataFrame is a `Table`: a list of column names plus a list of rows;
  a column-existence check in the source (`"X" in df.columns`) becomes a
  membership test on `Table.cols`.
-/

/-! ### Character and string helpers (embedding `re` and Python `in`) -/

/-- The four-character window of `cs` starting at position `i`. -/
def windowFour (cs : List Char) (i : Nat) : List Char :=
  (cs.drop i).take 4

/-- Position `i` of `cs` starts four consecutive digit characters.
This is the declarative meaning of a match of the regex `\d{4}` at `i`. -/
def digitsAt (cs : List Char) (i : Nat) : Prop :=
  (windowFour cs i).length = 4 ∧ ∀ c ∈ windowFour cs i, c.isDigit = true

instance (cs : List Char) (i : Nat) : Decidable (digitsAt cs i) := by
  unfold digitsAt; infer_instance

/-- If the list starts with four digit characters, return them as a string. -/
def fourDigitsHere : List Char → Option String
  | a :: b :: c :: d :: _ =>
    if a.isDigit && b.isDigit && c.isDigit && d.isDigit then
      some (String.mk [a, b, c, d])
    else none
  | _ => none

/-- Leftmost search for four consecutive digits: the semantics of
`pandas.Series.str.extract` with pattern `(\d{4})` (which uses `re.search`). -/
def searchFour : List Char → Option String
  | [] => none
  | c :: cs =>
    match fourDigitsHere (c :: cs) with
    | some s => some s
    | none => searchFour cs

/-- `str.extract(r'(\d{4})')` applied to one cell of the date column: a missing
cell stays missing; otherwise the first four consecutive digits, if any
(src/app.py line 41). -/
def extractYear (date : Option String) : Option String :=
  date.bind fun s => searchFour s.toList

/-- Boolean list-prefix test on characters. -/
def listPrefixOf : List Char → List Char → Bool
  | [], _ => true
  | _ :: _, [] => false
  | a :: as, b :: bs => (a == b) && listPrefixOf as bs

/-- Boolean contiguous-sublist test: does `pat` occur inside `s`? -/
def listSubOf (pat : List Char) : List Char → Bool
  | [] => pat.isEmpty
  | c :: rest => listPrefixOf pat (c :: rest) || listSubOf pat rest

/-- Python's substring test `pat in s` (used as `"Texas" in loc` in
`mock_geocode`, src/app.py lines 74-82). -/
def strContains (s pat : String) : Bool :=
  listSubOf pat.toList s.toList

/-- Python f-string rendering of one cell: a present string renders as itself,
a missing cell (pandas `NaN`) renders as `"nan"`. -/
def cellStr : Option String → String
  | some s => s
  | none => "nan"

/-! ### Data model: rows, tables, random draws -/

/-- One record of the incident table. Raw CSV fields plus the columns that
`process_data` derives; a fresh load has the derived fields `none`. -/
structure Row where
  incidentId : Option String
  incidentDate : Option String
  state : Option String
  cityOrCounty : Option String
  address : Option String
  victimsKilled : Option Int
  victimsInjured : Option Int
  year : Option String
  totalVictims : Option Int
  fullLocation : Option String
  latitude : Option Rat
  longitude : Option Rat
  deriving DecidableEq

/-- A DataFrame: its column names and its rows. A field of `Row` is
meaningful only when the matching column name is present in `cols`. -/
structure Table where
  cols : List String
  rows : List Row
  deriving DecidableEq

/-- The per-row random material consumed by `mock_geocode`: one
`np.random.uniform` (lat, lon) pair for the generic USA bounding box and one
pair for each state-specific branch. -/
structure Draw where
  baseLat : Rat
  baseLon : Rat
  texLat : Rat
  texLon : Rat
  calLat : Rat
  calLon : Rat
  nyLat : Rat
  nyLon : Rat
  deriving DecidableEq

/-- The ranges `np.random.uniform(a, b)` guarantees (half-open `[a, b)`),
branch by branch as in `mock_geocode` (src/app.py lines 68-82). -/
def Draw.valid (d : Draw) : Prop :=
  (25 ≤ d.baseLat ∧ d.baseLat < 49) ∧ (-125 ≤ d.baseLon ∧ d.baseLon < -65) ∧
  (26 ≤ d.texLat ∧ d.texLat < 36) ∧ (-106 ≤ d.texLon ∧ d.texLon < -93) ∧
  (32 ≤ d.calLat ∧ d.calLat < 42) ∧ (-124 ≤ d.calLon ∧ d.calLon < -114) ∧
  (40 ≤ d.nyLat ∧ d.nyLat < 45) ∧ (-80 ≤ d.nyLon ∧ d.nyLon < -73)

instance (d : Draw) : Decidable d.valid := by
  unfold Draw.valid; infer_instance

/-! ### `src/app.py`: loader, `process_data`, `update_map` -/

/-- The columns of the fallback empty DataFrame (src/app.py lines 31-32). -/
def expectedColumns : List String :=
  ["Incident ID", "Incident Date", "State", "City Or County",
   "Address", "Victims Killed", "Victims Injured"]

/-- The empty table the loader's `except` branch constructs. -/
def emptyExpectedTable : Table :=
  { cols := expectedColumns, rows := [] }

/-- What the filesystem holds at a path: no file, a file `pd.read_csv`
fails on, or a file that parses to a table. -/
inductive FileContent where
  | missing
  | malformed
  | good (t : Table)
  deriving DecidableEq

def primaryPath : String := "data/MassShootingIncidnets.csv"

def altPath : String := "data/MassShootingIncidents.csv"

/-- True when `pd.read_csv` on this content returns a table. -/
def FileContent.isGood : FileContent → Bool
  | .good _ => true
  | _ => false

/-- The path actually read: the primary path, unless it does not exist and
the alternate filename does (src/app.py lines 19-22; `os.path.exists` is
true for both well-formed and malformed existing files). -/
def chosenPath (fs : String → FileContent) : String :=
  if fs primaryPath = FileContent.missing then
    (if fs altPath = FileContent.missing then primaryPath else altPath)
  else primaryPath

/-- The module-level load (src/app.py lines 16-32): read the chosen path;
any failure (missing file or malformed content raises inside the `try`)
yields the empty table with the expected column schema. Totality of this
function is the model of "never raises to the caller". -/
def load (fs : String → FileContent) : Table :=
  match fs (chosenPath fs) with
  | .good t => t
  | _ => emptyExpectedTable

/-- Append a column name if the DataFrame does not already have it
(a pandas column assignment creates the column only when absent). -/
def addCol (cols : List String) (c : String) : List String :=
  if c ∈ cols then cols else cols ++ [c]

/-- The column list after `process_data`: `Year` and `Date` when an
`Incident Date` column exists, `Total Victims` when both victim columns
exist, and always `Full Location`, `latitude`, `longitude`. -/
def processCols (cols : List String) : List String :=
  let c1 := if "Incident Date" ∈ cols then addCol (addCol cols "Year") "Date" else cols
  let c2 := if "Victims Killed" ∈ cols ∧ "Victims Injured" ∈ cols then
      addCol c1 "Total Victims" else c1
  addCol (addCol (addCol c2 "Full Location") "latitude") "longitude"

/-- One row of `mock_geocode` (src/app.py lines 65-85): a state-specific
uniform draw when the location string contains `"Texas"`, `"California"` or
`"New York"` (checked in that order), the USA-box draw otherwise; a non-string
location (`NaN`/`None` fails `isinstance(loc, str)`) keeps the base draw. -/
def mockGeocode (loc : Option String) (d : Draw) : Rat × Rat :=
  match loc with
  | some s =>
    if strContains s "Texas" then (d.texLat, d.texLon)
    else if strContains s "California" then (d.calLat, d.calLon)
    else if strContains s "New York" then (d.nyLat, d.nyLon)
    else (d.baseLat, d.baseLon)
  | none => (d.baseLat, d.baseLon)

/-- The `Full Location` cell built by the `apply` lambda of src/app.py
lines 58-62: the f-string when the three component columns exist in the
row's index, `None` otherwise. A missing component cell renders as `"nan"`. -/
def rowLoc (hasLoc : Bool) (r : Row) : Option String :=
  if hasLoc then
    some (cellStr r.address ++ ", " ++ cellStr r.cityOrCounty ++ ", " ++
          cellStr r.state ++ ", USA")
  else none

/-- One row of `process_data` (src/app.py lines 36-90). The flags record the
column-existence checks of lines 40, 50 and 60, which depend only on the
table's columns, not on the row. -/
def processRow (hasDate hasVictims hasLoc : Bool) (r : Row) (d : Draw) : Row :=
  let year := if hasDate then extractYear r.incidentDate else r.year
  let total :=
    if hasVictims then
      match r.victimsKilled, r.victimsInjured with
      | some a, some b => some (a + b)
      | _, _ => none
    else r.totalVictims
  let floc := rowLoc hasLoc r
  let coords := mockGeocode floc d
  { r with
    year := year, totalVictims := total, fullLocation := floc,
    latitude := some coords.1, longitude := some coords.2 }

/-- Process the rows in order; row `i` consumes draw `draws i`. -/
def processRowsFrom (hasDate hasVictims hasLoc : Bool) (draws : Nat → Draw) :
    Nat → List Row → List Row
  | _, [] => []
  | i, r :: rs =>
    processRow hasDate hasVictims hasLoc r (draws i) ::
      processRowsFrom hasDate hasVictims hasLoc draws (i + 1) rs

/-- `process_data` (src/app.py lines 36-90), with the random material of
`mock_geocode` passed explicitly as `draws`. The `Date` column
(`pd.to_datetime`, line 45) is tracked in the schema but its values, used
only for sorting in the UI, are not modelled. -/
def process_data (t : Table) (draws : Nat → Draw) : Table :=
  { cols := processCols t.cols,
    rows := processRowsFrom
      (decide ("Incident Date" ∈ t.cols))
      (decide ("Victims Killed" ∈ t.cols ∧ "Victims Injured" ∈ t.cols))
      (decide ("Address" ∈ t.cols ∧ "City Or County" ∈ t.cols ∧ "State" ∈ t.cols))
      draws 0 t.rows }

/-- Numeric value of a digit string: `astype(float)` applied to the
four-digit token `str.extract` produced. -/
def yearVal (s : String) : Int :=
  s.toList.foldl (fun a c => a * 10 + ((c.toNat : Int) - 48)) 0

/-- The boolean the filter line evaluates for one row:
`filtered_df['Year'].astype(float).between(y1, y2)` — inclusive on both
ends, `False` on a missing (`NaN`) year (src/app.py line 206). -/
def rowYearOk (r : Row) (y1 y2 : Int) : Bool :=
  match r.year with
  | some s => decide (y1 ≤ yearVal s) && decide (yearVal s ≤ y2)
  | none => false

/-- The data part of the `update_map` callback (src/app.py lines 200-239):
filter by year range when a `Year` column exists, and report the incident
count `filtered_df.shape[0]` used in both the title and the
"Showing N incidents" message. The size/color metric arguments only select
columns for the figure and never change the row subset, so they are not
modelled. -/
def update_map (t : Table) (y1 y2 : Int) : Table × Nat :=
  let filtered :=
    if "Year" ∈ t.cols then
      { t with rows := t.rows.filter (fun r => rowYearOk r y1 y2) }
    else t
  (filtered, filtered.rows.length)

/-! ### `src/geocoding.py`: batch geocoding run and left merge -/

/-- An original incident as `geocoding.py` uses it: the script reads
`Incident ID`, `Address`, `City Or County`, `State` (lines 14-20) and carries
every original column through the merge. -/
structure Incident where
  incidentId : Int
  address : String
  city : String
  state : String
  deriving DecidableEq

/-- One parsed row of the census response, with the fixed 8-column schema
assigned at lines 59-62; a no-match row has empty coordinate cells. -/
structure GeocodeResult where
  id : Int
  inputAddress : String
  matchedAddress : String
  matchType : String
  longitude : Option Rat
  latitude : Option Rat
  tigerLineId : Option Int
  side : String
  deriving DecidableEq

/-- One row of `merged_df`: the original incident's columns plus the right
table's `id`, `latitude`, `longitude` (all `NaN` when unmatched). -/
structure MergedRow where
  incident : Incident
  rid : Option Int
  latitude : Option Rat
  longitude : Option Rat
  deriving DecidableEq

/-- `df.merge(results_df[['id','latitude','longitude']], left_on='Incident ID',
right_on='id', how='left')` (src/geocoding.py line 65): every left row is kept
in order; it is paired with each right row whose `id` equals its
`Incident ID`, or with null columns when no right row matches. -/
def leftJoin : List Incident → List GeocodeResult → List MergedRow
  | [], _ => []
  | inc :: rest, results =>
    (match results.filter (fun g => decide (g.id = inc.incidentId)) with
     | [] => [{ incident := inc, rid := none, latitude := none, longitude := none }]
     | m :: ms =>
       (m :: ms).map fun g =>
         { incident := inc, rid := some g.id,
           latitude := g.latitude, longitude := g.longitude }) ++
    leftJoin rest results

/-- The observable outcome of one run of `geocoding.py`: which files were
written, the error message printed before `exit()` (if any), and the merged
table (if the run got that far). -/
structure RunOutcome where
  writtenFiles : List String
  errorMsg : Option String
  merged : Option (List MergedRow)
  deriving DecidableEq

/-- One run of `src/geocoding.py`, with the external world (the input table,
the HTTP status code and the parsed response rows) passed explicitly.
The script always writes `census_batch.csv` (line 23); on `status_code == 200`
it writes the response to `census_results.csv`, parses it, merges, and writes
`mass_shootings_geocoded.csv` (lines 40-68); on any other status it prints
`Error: Status code {status}` and calls `exit()` (lines 42-44), so nothing
after line 44 runs. -/
def geocodeRun (df : List Incident) (status : Nat)
    (results : List GeocodeResult) : RunOutcome :=
  if status = 200 then
    { writtenFiles :=
        ["census_batch.csv", "census_results.csv", "mass_shootings_geocoded.csv"],
      errorMsg := none,
      merged := some (leftJoin df results) }
  else
    { writtenFiles := ["census_batch.csv"],
      errorMsg := some ("Error: Status code " ++ toString status),
      merged := none }

/-! ### Spec-side definitions used to compare against the source -/

/-- Modelled from the spec's words for claim comparison: the maximal digit
runs of a character list, in order. -/
def digitRuns : List Char → List Char → List (List Char)
  | acc, [] => if acc.isEmpty then [] else [acc.reverse]
  | acc, c :: rest =>
    if c.isDigit then digitRuns (c :: acc) rest
    else if acc.isEmpty then digitRuns [] rest
    else acc.reverse :: digitRuns [] rest

/-- Modelled from the spec's words ("the first run of exactly four digits"):
the first maximal digit run whose length is exactly four, `none` when no such
run exists. Compared against `extractYear`, which embeds the source's regex. -/
def specFirstExactFourYear (date : Option String) : Option String :=
  date.bind fun s =>
    (digitRuns [] s.toList).find? (fun run => run.length = 4) |>.map
      fun run => String.mk run

/-- A row with every derived field cleared of coordinates, used to compare
two `process_data` outputs on everything except the random columns. -/
def stripCoords (r : Row) : Row :=
  { r with latitude := none, longitude := none }

/-- The character list of a row's date cell (empty when the cell is missing). -/
def dateChars (r : Row) : List Char :=
  match r.incidentDate with
  | some s => s.toList
  | none => []

/-! ### Concrete fixtures for witnesses and counterexamples -/

/-- A well-formed raw incident row, as the loader would produce it. -/
def sampleRow : Row :=
  { incidentId := some "1", incidentDate := some "March 3, 2022",
    state := some "IL", cityOrCounty := some "Springfield",
    address := some "1 Main St", victimsKilled := some 2,
    victimsInjured := some 3, year := none, totalVictims := none,
    fullLocation := none, latitude := none, longitude := none }

/-- A fixed in-range draw (base point (30, -100), and in-range values for
each state branch). -/
def sampleDraw : Draw := ⟨30, -100, 30, -100, 35, -120, 42, -75⟩

/-- A second in-range draw with a different base point. -/
def otherDraw : Draw := ⟨40, -80, 27, -100, 35, -120, 42, -75⟩

def sampleDraws : Nat → Draw := fun _ => sampleDraw

def otherDraws : Nat → Draw := fun _ => otherDraw

/-- A one-row raw table with the loader's schema. -/
def sampleTable : Table := { cols := expectedColumns, rows := [sampleRow] }

/-- The first processed row of `sampleTable`. -/
def sampleProcessedRow : Row :=
  ((process_data sampleTable sampleDraws).rows).getD 0 sampleRow

/-- A raw row whose date cell holds a five-digit run. -/
def fiveDigitRow : Row :=
  { sampleRow with incidentId := some "2", incidentDate := some "12345" }

def fiveDigitTable : Table := { cols := expectedColumns, rows := [fiveDigitRow] }

/-- A raw row whose date cell contains no four consecutive digits. -/
def noYearRow : Row :=
  { sampleRow with incidentId := some "3", incidentDate := some "unknown" }

def noYearTable : Table := { cols := expectedColumns, rows := [noYearRow] }

/-- The first processed row of `noYearTable`. -/
def noYearProcessedRow : Row :=
  ((process_data noYearTable sampleDraws).rows).getD 0 noYearRow

/-- A raw row whose address cell is missing (`NaN`) while the `Address`
column itself exists. -/
def nanAddressRow : Row := { sampleRow with incidentId := some "4", address := none }

def nanAddressTable : Table := { cols := expectedColumns, rows := [nanAddressRow] }

/-- A filesystem where only the alternate filename holds a readable file. -/
def fsFallback : String → FileContent := fun p =>
  if p = primaryPath then FileContent.missing
  else if p = altPath then FileContent.good sampleTable
  else FileContent.missing

/-- A filesystem with no incident file at all. -/
def fsAllMissing : String → FileContent := fun _ => FileContent.missing

def sampleIncidents : List Incident :=
  [⟨1, "1 Main St", "Springfield", "IL"⟩, ⟨2, "2 Oak Ave", "Austin", "TX"⟩]

/-- A census response matching only incident 1. -/
def sampleResults : List GeocodeResult :=
  [⟨1, "1 Main St, Springfield, IL", "1 MAIN ST, SPRINGFIELD, IL", "Match",
    some (-895/10), some (398/10), some 111, "L"⟩]

/-! ### Helper lemmas about `processRow` and `processRowsFrom` -/

theorem processRow_incidentDate (hd hv hl : Bool) (r : Row) (d : Draw) :
    (processRow hd hv hl r d).incidentDate = r.incidentDate := rfl

theorem processRow_victimsKilled (hd hv hl : Bool) (r : Row) (d : Draw) :
    (processRow hd hv hl r d).victimsKilled = r.victimsKilled := rfl

theorem processRow_victimsInjured (hd hv hl : Bool) (r : Row) (d : Draw) :
    (processRow hd hv hl r d).victimsInjured = r.victimsInjured := rfl

theorem processRow_year (hd hv hl : Bool) (r : Row) (d : Draw) :
    (processRow hd hv hl r d).year =
      (if hd then extractYear r.incidentDate else r.year) := rfl

theorem processRow_totalVictims (hd hv hl : Bool) (r : Row) (d : Draw) :
    (processRow hd hv hl r d).totalVictims =
      (if hv then
        (match r.victimsKilled, r.victimsInjured with
         | some a, some b => some (a + b)
         | _, _ => none)
       else r.totalVictims) := rfl

theorem processRow_fullLocation (hd hv hl : Bool) (r : Row) (d : Draw) :
    (processRow hd hv hl r d).fullLocation = rowLoc hl r := rfl

theorem processRow_latitude (hd hv hl : Bool) (r : Row) (d : Draw) :
    (processRow hd hv hl r d).latitude =
      some (mockGeocode (rowLoc hl r) d).1 := rfl

theorem processRow_longitude (hd hv hl : Bool) (r : Row) (d : Draw) :
    (processRow hd hv hl r d).longitude =
      some (mockGeocode (rowLoc hl r) d).2 := rfl

theorem processRowsFrom_length (hd hv hl : Bool) (draws : Nat → Draw) :
    ∀ (i : Nat) (rs : List Row),
      (processRowsFrom hd hv hl draws i rs).length = rs.length
  | _, [] => rfl
  | i, _ :: rs => by
    simp [processRowsFrom, processRowsFrom_length hd hv hl draws (i + 1) rs]

/-- Every row of the processed list is `processRow` of some input row. -/
theorem mem_processRowsFrom (hd hv hl : Bool) (draws : Nat → Draw) :
    ∀ (i : Nat) (rs : List Row) (r : Row),
      r ∈ processRowsFrom hd hv hl draws i rs →
      ∃ (j : Nat) (r0 : Row), r0 ∈ rs ∧ r = processRow hd hv hl r0 (draws j)
  | _, [], _ => by intro h; cases h
  | i, r0 :: rs, r => by
    intro h
    rcases List.mem_cons.mp h with h | h
    · exact ⟨i, r0, List.mem_cons_self r0 rs, h⟩
    · obtain ⟨j, r1, hmem, heq⟩ := mem_processRowsFrom hd hv hl draws (i + 1) rs r h
      exact ⟨j, r1, List.mem_cons_of_mem r0 hmem, heq⟩

/-! ### Helper lemmas about columns -/

theorem mem_addCol {cols : List String} {c a : String} :
    a ∈ addCol cols c ↔ a ∈ cols ∨ a = c := by
  unfold addCol
  by_cases h : c ∈ cols
  · simp only [if_pos h]
    exact ⟨Or.inl, fun hx => hx.elim id (fun he => he ▸ h)⟩
  · simp [if_neg h]

theorem addCol_of_mem {cols : List String} {c : String} (h : c ∈ cols) :
    addCol cols c = cols := if_pos h

/-- Membership in the processed column list, spelled out. -/
theorem mem_processCols {cols : List String} {a : String} :
    a ∈ processCols cols ↔
      a ∈ cols ∨
      ("Incident Date" ∈ cols ∧ (a = "Year" ∨ a = "Date")) ∨
      (("Victims Killed" ∈ cols ∧ "Victims Injured" ∈ cols) ∧ a = "Total Victims") ∨
      a = "Full Location" ∨ a = "latitude" ∨ a = "longitude" := by
  unfold processCols
  by_cases h1 : "Incident Date" ∈ cols <;>
    by_cases h2 : "Victims Killed" ∈ cols ∧ "Victims Injured" ∈ cols <;>
      simp [h1, h2, mem_addCol] <;>
      tauto

theorem incidentDate_mem_processCols {cols : List String} :
    "Incident Date" ∈ processCols cols ↔ "Incident Date" ∈ cols := by
  rw [mem_processCols]
  simp

theorem killed_mem_processCols {cols : List String} :
    "Victims Killed" ∈ processCols cols ↔ "Victims Killed" ∈ cols := by
  rw [mem_processCols]
  simp

theorem injured_mem_processCols {cols : List String} :
    "Victims Injured" ∈ processCols cols ↔ "Victims Injured" ∈ cols := by
  rw [mem_processCols]
  simp

theorem address_mem_processCols {cols : List String} :
    "Address" ∈ processCols cols ↔ "Address" ∈ cols := by
  rw [mem_processCols]
  simp

theorem city_mem_processCols {cols : List String} :
    "City Or County" ∈ processCols cols ↔ "City Or County" ∈ cols := by
  rw [mem_processCols]
  simp

theorem state_mem_processCols {cols : List String} :
    "State" ∈ processCols cols ↔ "State" ∈ cols := by
  rw [mem_processCols]
  simp

theorem year_mem_processCols {cols : List String} (h : "Incident Date" ∈ cols) :
    "Year" ∈ processCols cols := by
  rw [mem_processCols]
  tauto

/-- Re-running `processCols` on an already-processed column list adds
nothing new. -/
theorem processCols_absorb (P : List String)
    (hY : "Incident Date" ∈ P → "Year" ∈ P ∧ "Date" ∈ P)
    (hT : ("Victims Killed" ∈ P ∧ "Victims Injured" ∈ P) → "Total Victims" ∈ P)
    (hF : "Full Location" ∈ P) (hla : "latitude" ∈ P) (hlo : "longitude" ∈ P) :
    processCols P = P := by
  unfold processCols
  by_cases h1 : "Incident Date" ∈ P
  · obtain ⟨hy, hd⟩ := hY h1
    by_cases h2 : "Victims Killed" ∈ P ∧ "Victims Injured" ∈ P
    · simp [h1, h2, addCol_of_mem hy, addCol_of_mem hd, addCol_of_mem (hT h2),
        addCol_of_mem hF, addCol_of_mem hla, addCol_of_mem hlo]
    · simp [h1, h2, addCol_of_mem hy, addCol_of_mem hd,
        addCol_of_mem hF, addCol_of_mem hla, addCol_of_mem hlo]
  · by_cases h2 : "Victims Killed" ∈ P ∧ "Victims Injured" ∈ P
    · simp [h1, h2, addCol_of_mem (hT h2),
        addCol_of_mem hF, addCol_of_mem hla, addCol_of_mem hlo]
    · simp [h1, h2, addCol_of_mem hF, addCol_of_mem hla, addCol_of_mem hlo]

theorem processCols_processCols (cols : List String) :
    processCols (processCols cols) = processCols cols := by
  refine processCols_absorb (processCols cols) ?_ ?_ ?_ ?_ ?_
  · intro h
    have h1 := incidentDate_mem_processCols.mp h
    constructor <;> (rw [mem_processCols]; tauto)
  · intro ⟨hk, hi⟩
    have hk1 := killed_mem_processCols.mp hk
    have hi1 := injured_mem_processCols.mp hi
    rw [mem_processCols]; tauto
  · rw [mem_processCols]; tauto
  · rw [mem_processCols]; tauto
  · rw [mem_processCols]; tauto

/-- Re-processing a processed row with the same flags and a fresh draw is
the same as processing the original row with the fresh draw. -/
theorem processRow_processRow (hd hv hl : Bool) (r : Row) (d d' : Draw) :
    processRow hd hv hl (processRow hd hv hl r d) d' = processRow hd hv hl r d' := by
  cases hd <;> cases hv <;> cases hl <;> rfl

theorem processRowsFrom_processRowsFrom (hd hv hl : Bool) (d1 d2 : Nat → Draw) :
    ∀ (i : Nat) (rs : List Row),
      processRowsFrom hd hv hl d2 i (processRowsFrom hd hv hl d1 i rs) =
        processRowsFrom hd hv hl d2 i rs
  | _, [] => rfl
  | i, r :: rs => by
    simp [processRowsFrom, processRow_processRow,
      processRowsFrom_processRowsFrom hd hv hl d1 d2 (i + 1) rs]

/-- The non-coordinate content of a processed row does not depend on the draw. -/
theorem stripCoords_processRow (hd hv hl : Bool) (r : Row) (d d' : Draw) :
    stripCoords (processRow hd hv hl r d) = stripCoords (processRow hd hv hl r d') := rfl

theorem processRowsFrom_stripCoords (hd hv hl : Bool) (d1 d2 : Nat → Draw) :
    ∀ (i : Nat) (rs : List Row),
      (processRowsFrom hd hv hl d1 i rs).map stripCoords =
        (processRowsFrom hd hv hl d2 i rs).map stripCoords
  | _, [] => rfl
  | i, r :: rs => by
    simp only [processRowsFrom, List.map_cons,
      processRowsFrom_stripCoords hd hv hl d1 d2 (i + 1) rs]
    rfl

/-! ### Helper lemmas about the `\d{4}` search -/

theorem digitsAt_nil (i : Nat) : ¬ digitsAt ([] : List Char) i := by
  simp [digitsAt, windowFour]

theorem fourDigitsHere_eq_some_iff :
    ∀ (cs : List Char) (s : String),
      fourDigitsHere cs = some s ↔ digitsAt cs 0 ∧ s = String.mk (windowFour cs 0)
  | [], s => by simp [fourDigitsHere, digitsAt, windowFour]
  | [a], s => by simp [fourDigitsHere, digitsAt, windowFour]
  | [a, b], s => by simp [fourDigitsHere, digitsAt, windowFour]
  | [a, b, c], s => by simp [fourDigitsHere, digitsAt, windowFour]
  | a :: b :: c :: d :: rest, s => by
    simp only [fourDigitsHere]
    split
    next h =>
      simp only [Bool.and_eq_true] at h
      obtain ⟨⟨⟨ha, hb⟩, hc⟩, hd⟩ := h
      constructor
      · intro hx
        have hs : String.mk [a, b, c, d] = s := Option.some.inj hx
        refine ⟨⟨rfl, ?_⟩, hs.symm⟩
        intro x hx2
        simp [windowFour] at hx2
        rcases hx2 with rfl | rfl | rfl | rfl <;> assumption
      · rintro ⟨-, hs⟩
        rw [hs]; rfl
    next h =>
      constructor
      · intro hx; cases hx
      · rintro ⟨⟨hlen, hall⟩, hs⟩
        have ha := hall a (by simp [windowFour])
        have hb := hall b (by simp [windowFour])
        have hc := hall c (by simp [windowFour])
        have hd := hall d (by simp [windowFour])
        exact absurd (by simp [ha, hb, hc, hd]) h

theorem fourDigitsHere_eq_none_iff (cs : List Char) :
    fourDigitsHere cs = none ↔ ¬ digitsAt cs 0 := by
  constructor
  · intro h hdig
    have hx := (fourDigitsHere_eq_some_iff cs (String.mk (windowFour cs 0))).mpr ⟨hdig, rfl⟩
    rw [h] at hx; cases hx
  · intro h
    cases hx : fourDigitsHere cs with
    | none => rfl
    | some s => exact absurd ((fourDigitsHere_eq_some_iff cs s).mp hx).1 h

theorem searchFour_eq_none_iff :
    ∀ cs : List Char, searchFour cs = none ↔ ∀ i, ¬ digitsAt cs i
  | [] => by
    simp only [searchFour, true_iff]
    exact fun i => digitsAt_nil i
  | c :: cs => by
    rw [searchFour]
    cases hx : fourDigitsHere (c :: cs) with
    | some s =>
      show some s = none ↔ _
      constructor
      · intro h; cases h
      · intro h
        exact absurd ((fourDigitsHere_eq_some_iff _ s).mp hx).1 (h 0)
    | none =>
      show searchFour cs = none ↔ _
      rw [searchFour_eq_none_iff cs]
      constructor
      · intro h i
        cases i with
        | zero => exact (fourDigitsHere_eq_none_iff _).mp hx
        | succ j => exact h j
      · intro h i
        exact h (i + 1)

theorem searchFour_eq_some_iff :
    ∀ (cs : List Char) (s : String),
      searchFour cs = some s ↔
        ∃ i, digitsAt cs i ∧ (∀ j, j < i → ¬ digitsAt cs j) ∧
          s = String.mk (windowFour cs i)
  | [], s => by
    constructor
    · intro h; simp [searchFour] at h
    · rintro ⟨i, hi, -, -⟩; exact absurd hi (digitsAt_nil i)
  | c :: cs, s => by
    rw [searchFour]
    cases hx : fourDigitsHere (c :: cs) with
    | some s0 =>
      obtain ⟨hdig, hs0⟩ := (fourDigitsHere_eq_some_iff _ s0).mp hx
      show some s0 = some s ↔ _
      constructor
      · intro h
        refine ⟨0, hdig, fun j hj => absurd hj (Nat.not_lt_zero j), ?_⟩
        have : s0 = s := by injection h
        rw [← this, hs0]
      · rintro ⟨i, hi, hmin, hw⟩
        cases i with
        | zero => rw [hw, ← hs0]
        | succ j => exact absurd hdig (hmin 0 (Nat.succ_pos j))
    | none =>
      have hnot0 := (fourDigitsHere_eq_none_iff _).mp hx
      show searchFour cs = some s ↔ _
      rw [searchFour_eq_some_iff cs s]
      constructor
      · rintro ⟨i, hi, hmin, hw⟩
        refine ⟨i + 1, hi, ?_, hw⟩
        intro j hj
        cases j with
        | zero => exact hnot0
        | succ k => exact hmin k (Nat.lt_of_succ_lt_succ hj)
      · rintro ⟨i, hi, hmin, hw⟩
        cases i with
        | zero => exact absurd hi hnot0
        | succ k => exact ⟨k, hi, fun j hj => hmin (j + 1) (Nat.succ_lt_succ hj), hw⟩

/-! ### Helper lemmas for the filter and the mock geocoder -/

theorem rowYearOk_eq_true_iff (r : Row) (y1 y2 : Int) :
    rowYearOk r y1 y2 = true ↔
      ∃ s, r.year = some s ∧ y1 ≤ yearVal s ∧ yearVal s ≤ y2 := by
  cases hy : r.year with
  | none => simp [rowYearOk, hy]
  | some s => simp [rowYearOk, hy]

theorem mockGeocode_in_box (loc : Option String) (d : Draw) (h : d.valid) :
    25 ≤ (mockGeocode loc d).1 ∧ (mockGeocode loc d).1 ≤ 49 ∧
    -125 ≤ (mockGeocode loc d).2 ∧ (mockGeocode loc d).2 ≤ -65 := by
  obtain ⟨⟨h1, h2⟩, ⟨h3, h4⟩, ⟨h5, h6⟩, ⟨h7, h8⟩, ⟨h9, h10⟩, ⟨h11, h12⟩,
    ⟨h13, h14⟩, h15, h16⟩ := h
  cases loc with
  | none =>
    refine ⟨?_, ?_, ?_, ?_⟩ <;> simp only [mockGeocode] <;> linarith
  | some s =>
    refine ⟨?_, ?_, ?_, ?_⟩ <;> simp only [mockGeocode] <;> split_ifs <;>
      (try simp) <;> linarith

/-! ### Helper lemmas about the left merge -/

/-- When the right-hand ids are pairwise distinct, at most one response row
matches a given id. -/
theorem filter_id_nodup_length (x : Int) :
    ∀ results : List GeocodeResult,
      (results.map GeocodeResult.id).Nodup →
      (results.filter fun g => decide (g.id = x)).length ≤ 1
  | [], _ => by simp
  | g :: rs, h => by
    rw [List.map_cons, List.nodup_cons] at h
    obtain ⟨hnotin, hnd⟩ := h
    by_cases hg : g.id = x
    · rw [List.filter_cons_of_pos (by simpa using hg)]
      have hnil : (rs.filter fun g2 => decide (g2.id = x)) = [] := by
        rw [List.filter_eq_nil_iff]
        intro a ha hdec
        rw [decide_eq_true_eq] at hdec
        exact hnotin (hg ▸ hdec ▸ List.mem_map_of_mem GeocodeResult.id ha)
      simp [hnil]
    · rw [List.filter_cons_of_neg (by simpa using hg)]
      exact filter_id_nodup_length x rs hnd

theorem leftJoin_map_incident (results : List GeocodeResult)
    (h : (results.map GeocodeResult.id).Nodup) :
    ∀ df : List Incident, (leftJoin df results).map MergedRow.incident = df
  | [] => rfl
  | inc :: rest => by
    simp only [leftJoin, List.map_append, leftJoin_map_incident results h rest]
    cases hm : results.filter (fun g => decide (g.id = inc.incidentId)) with
    | nil => simp [hm]
    | cons m ms =>
      have hle : (m :: ms).length ≤ 1 := hm ▸ filter_id_nodup_length _ results h
      have hms : ms = [] := by
        cases ms with
        | nil => rfl
        | cons a as => simp at hle
      subst hms
      simp [hm]

/-- A merged row whose incident matched no response row carries null
coordinates. -/
theorem leftJoin_unmatched_null :
    ∀ (df : List Incident) (results : List GeocodeResult) (row : MergedRow),
      row ∈ leftJoin df results →
      (∀ g ∈ results, g.id ≠ row.incident.incidentId) →
      row.latitude = none ∧ row.longitude = none
  | [], _, row => by intro h; cases h
  | inc :: rest, results, row => by
    intro hmem hno
    simp only [leftJoin] at hmem
    rcases List.mem_append.mp hmem with hb | hr
    · cases hm : results.filter (fun g => decide (g.id = inc.incidentId)) with
      | nil =>
        rw [hm] at hb
        simp at hb
        simp [hb]
      | cons m ms =>
        rw [hm] at hb
        simp only [List.mem_map] at hb
        obtain ⟨g, hg, hrow⟩ := hb
        have hgf : g ∈ results.filter (fun g2 => decide (g2.id = inc.incidentId)) := by
          rw [hm]; exact hg
        have hgid : g.id = inc.incidentId := by
          simpa using List.of_mem_filter hgf
        have hginc : row.incident.incidentId = inc.incidentId := by
          rw [← hrow]
        exact absurd (hginc ▸ hgid) (hno g (List.mem_of_mem_filter hgf))
    · exact leftJoin_unmatched_null rest results row hr hno

theorem processRow_totalVictims_true (hd hl : Bool) (r : Row) (d : Draw) :
    (processRow hd true hl r d).totalVictims =
      (match r.victimsKilled, r.victimsInjured with
       | some a, some b => some (a + b)
       | _, _ => none) := rfl

/-! ### Claim theorems -/

/-- C1: for every table with a `Year` column and every year range `[y1, y2]`,
the `update_map` filtering step returns exactly the rows whose year value `y`
satisfies `y1 ≤ y ≤ y2` (inclusive on both ends); rows with a missing year are
excluded, and the reported incident count equals the number of rows of the
returned subset. -/
theorem update_map_year_filter (t : Table) (y1 y2 : Int) (h : "Year" ∈ t.cols) :
    (update_map t y1 y2).1.rows.Sublist t.rows ∧
    (∀ r : Row, r ∈ (update_map t y1 y2).1.rows ↔
      r ∈ t.rows ∧ ∃ s, r.year = some s ∧ y1 ≤ yearVal s ∧ yearVal s ≤ y2) ∧
    (update_map t y1 y2).2 = (update_map t y1 y2).1.rows.length := by
  simp only [update_map, if_pos h]
  refine ⟨List.filter_sublist _, ?_, trivial⟩
  intro r
  simp [List.mem_filter, rowYearOk_eq_true_iff]

theorem update_map_year_filter_witness :
    (update_map (process_data sampleTable sampleDraws) 2000 2023).2 =
      (update_map (process_data sampleTable sampleDraws) 2000 2023).1.rows.length :=
  (update_map_year_filter (process_data sampleTable sampleDraws) 2000 2023
    (by decide)).2.2

/-- C2 (amended): every row of `process_data`'s output carries a present,
numeric latitude and longitude, because `mock_geocode` assigns coordinates to
every row; no row is dropped — the output has exactly as many rows as the
input. -/
theorem process_data_assigns_coordinates (t : Table) (draws : Nat → Draw) :
    (process_data t draws).rows.length = t.rows.length ∧
    ∀ r ∈ (process_data t draws).rows,
      r.latitude.isSome = true ∧ r.longitude.isSome = true := by
  constructor
  · simp only [process_data]
    exact processRowsFrom_length _ _ _ _ 0 t.rows
  · intro r hr
    simp only [process_data] at hr
    obtain ⟨j, r0, -, rfl⟩ := mem_processRowsFrom _ _ _ draws 0 t.rows r hr
    rw [processRow_latitude, processRow_longitude]
    constructor <;> trivial

theorem process_data_assigns_coordinates_witness :
    (process_data sampleTable sampleDraws).rows.length = sampleTable.rows.length ∧
    sampleProcessedRow.latitude.isSome = true :=
  ⟨(process_data_assigns_coordinates sampleTable sampleDraws).1,
   ((process_data_assigns_coordinates sampleTable sampleDraws).2
      sampleProcessedRow (by decide)).1⟩

/-- C2 counterexample: the claim's clause "rows lacking a coordinate are
dropped and never appear in the output" is false — `sampleTable`'s only row
has no coordinates, yet the output still contains that incident (one row,
carrying the same incident id), because `process_data` assigns mock
coordinates instead of dropping. -/
theorem process_data_never_drops_counterexample :
    (sampleTable.rows.length = 1 ∧
      ∀ r ∈ sampleTable.rows, r.latitude = none ∧ r.longitude = none) ∧
    (process_data sampleTable sampleDraws).rows.length = 1 ∧
    (process_data sampleTable sampleDraws).rows.map Row.incidentId = [some "1"] := by
  decide

/-- C3: a non-success HTTP status on the batch submission aborts the run with
a reported error containing the status code; the merge step is never reached
and no merged output file is written. -/
theorem geocodeRun_aborts_on_error (df : List Incident) (status : Nat)
    (results : List GeocodeResult) (h : ¬ (200 ≤ status ∧ status < 300)) :
    (geocodeRun df status results).errorMsg =
      some ("Error: Status code " ++ toString status) ∧
    (geocodeRun df status results).merged = none ∧
    "mass_shootings_geocoded.csv" ∉ (geocodeRun df status results).writtenFiles := by
  have hne : status ≠ 200 := fun he => h (by omega)
  simp only [geocodeRun, if_neg hne]
  refine ⟨trivial, trivial, ?_⟩
  decide

theorem geocodeRun_aborts_on_error_witness :
    (geocodeRun [] 500 []).errorMsg = some ("Error: Status code " ++ toString 500) ∧
    (geocodeRun [] 500 []).merged = none ∧
    "mass_shootings_geocoded.csv" ∉ (geocodeRun [] 500 []).writtenFiles :=
  geocodeRun_aborts_on_error [] 500 [] (by omega)

/-- C4: when both victim columns exist, every output row's Total Victims is
the sum of Victims Killed and Victims Injured, and is missing whenever either
operand is missing (never coerced to 0). -/
theorem total_victims_sum (t : Table) (draws : Nat → Draw)
    (hk : "Victims Killed" ∈ t.cols) (hi : "Victims Injured" ∈ t.cols) :
    ∀ r ∈ (process_data t draws).rows,
      (∀ a b : Int, r.victimsKilled = some a → r.victimsInjured = some b →
        r.totalVictims = some (a + b)) ∧
      ((r.victimsKilled = none ∨ r.victimsInjured = none) →
        r.totalVictims = none) := by
  intro r hr
  simp only [process_data] at hr
  obtain ⟨j, r0, -, rfl⟩ := mem_processRowsFrom _ _ _ draws 0 t.rows r hr
  have hv : decide ("Victims Killed" ∈ t.cols ∧ "Victims Injured" ∈ t.cols) = true := by
    simp [hk, hi]
  rw [hv, processRow_victimsKilled, processRow_victimsInjured,
    processRow_totalVictims_true]
  constructor
  · intro a b ha hb
    rw [ha, hb]
  · rintro (hn | hn)
    · rw [hn]
    · rw [hn]
      cases r0.victimsKilled <;> rfl

theorem total_victims_sum_witness :
    sampleProcessedRow.totalVictims = some (2 + 3) :=
  (total_victims_sum sampleTable sampleDraws (by decide) (by decide)
    sampleProcessedRow (by decide)).1 2 3 (by decide) (by decide)

theorem processRow_address (hd hv hl : Bool) (r : Row) (d : Draw) :
    (processRow hd hv hl r d).address = r.address := rfl

theorem processRow_cityOrCounty (hd hv hl : Bool) (r : Row) (d : Draw) :
    (processRow hd hv hl r d).cityOrCounty = r.cityOrCounty := rfl

theorem processRow_state (hd hv hl : Bool) (r : Row) (d : Draw) :
    (processRow hd hv hl r d).state = r.state := rfl

theorem processRow_year_true (hv hl : Bool) (r : Row) (d : Draw) :
    (processRow true hv hl r d).year = extractYear r.incidentDate := rfl

theorem dateChars_processRow (hd hv hl : Bool) (r : Row) (d : Draw) :
    dateChars (processRow hd hv hl r d) = dateChars r := rfl

/-- A row whose year cell is missing never survives the year filter. -/
theorem not_mem_update_map_of_year_none (t2 : Table) (hY : "Year" ∈ t2.cols)
    (r : Row) (hy : r.year = none) (y1 y2 : Int) :
    r ∉ (update_map t2 y1 y2).1.rows := by
  simp only [update_map, if_pos hY]
  intro hmem
  have hok := (List.mem_filter.mp hmem).2
  simp [rowYearOk, hy] at hok

/-- C5 (amended): for tables with an `Incident Date` column, the derived year
of every output row is the leftmost occurrence of four consecutive digits in
the date field (the first four digits of that occurrence, even when the digit
run continues), missing exactly when the date contains no four consecutive
digits; and a row with missing year is excluded by every year-range filter. -/
theorem year_first_four_consecutive_digits (t : Table) (draws : Nat → Draw)
    (hc : "Incident Date" ∈ t.cols) :
    ∀ r ∈ (process_data t draws).rows,
      (r.year = none ↔ ∀ i, ¬ digitsAt (dateChars r) i) ∧
      (∀ s, r.year = some s →
        ∃ i, digitsAt (dateChars r) i ∧ (∀ j, j < i → ¬ digitsAt (dateChars r) j) ∧
          s = String.mk (windowFour (dateChars r) i)) ∧
      (r.year = none → ∀ y1 y2 : Int,
        r ∉ (update_map (process_data t draws) y1 y2).1.rows) := by
  intro r hr
  have hyix : "Year" ∈ (process_data t draws).cols := by
    simp only [process_data]
    exact year_mem_processCols hc
  simp only [process_data] at hr
  obtain ⟨j, r0, -, rfl⟩ := mem_processRowsFrom _ _ _ draws 0 t.rows r hr
  have hd : decide ("Incident Date" ∈ t.cols) = true := decide_eq_true hc
  rw [hd, processRow_year_true, dateChars_processRow]
  refine ⟨?_, ?_, ?_⟩
  · cases hdate : r0.incidentDate with
    | none =>
      simp only [extractYear, hdate, Option.bind]
      have hdc : dateChars r0 = [] := by simp [dateChars, hdate]
      rw [hdc]
      simp only [true_iff]
      exact fun i => digitsAt_nil i
    | some s =>
      have hdc : dateChars r0 = s.toList := by simp [dateChars, hdate]
      rw [hdc]
      simp only [extractYear, hdate, Option.bind]
      exact searchFour_eq_none_iff s.toList
  · intro s2 hs2
    cases hdate : r0.incidentDate with
    | none => simp [extractYear, hdate] at hs2
    | some s =>
      have hdc : dateChars r0 = s.toList := by simp [dateChars, hdate]
      rw [hdc]
      simp only [extractYear, hdate, Option.some_bind] at hs2
      exact (searchFour_eq_some_iff s.toList s2).mp hs2
  · intro hynone y1 y2
    refine not_mem_update_map_of_year_none (process_data t draws) hyix _ ?_ y1 y2
    rw [processRow_year_true]
    exact hynone

theorem year_first_four_consecutive_digits_witness :
    noYearProcessedRow ∉
      (update_map (process_data noYearTable sampleDraws) 1900 2100).1.rows :=
  (year_first_four_consecutive_digits noYearTable sampleDraws (by decide)
    noYearProcessedRow (by decide)).2.2 (by decide) 1900 2100

/-- C5 counterexample: for the date `"12345"` the code derives year `"1234"`
(the regex `(\d{4})` matches the first four digits of a longer run), while the
claim's "first run of exactly four digits" yields nothing, since the only
maximal digit run has length five; so the claim's description of the derived
year is false on this input. -/
theorem year_exact_four_run_counterexample :
    (process_data fiveDigitTable sampleDraws).rows.map Row.year = [some "1234"] ∧
    specFirstExactFourYear (some "12345") = none ∧
    ¬ (∀ r ∈ (process_data fiveDigitTable sampleDraws).rows,
        r.year = specFirstExactFourYear r.incidentDate) := by
  decide

/-- C6 (amended): when the `Address`, `City Or County` and `State` columns all
exist, every output row's `Full Location` is the string
`"{address}, {city}, {state}, USA"` built from that row's cells with any
missing cell rendered as `"nan"` (a partial string, not null); `Full Location`
is null only when one of the three columns is absent from the table, and then
it is null for every row. -/
theorem full_location_format (t : Table) (draws : Nat → Draw) :
    ∀ r ∈ (process_data t draws).rows,
      (("Address" ∈ t.cols ∧ "City Or County" ∈ t.cols ∧ "State" ∈ t.cols) →
        r.fullLocation = some (cellStr r.address ++ ", " ++ cellStr r.cityOrCounty
          ++ ", " ++ cellStr r.state ++ ", USA")) ∧
      (¬ ("Address" ∈ t.cols ∧ "City Or County" ∈ t.cols ∧ "State" ∈ t.cols) →
        r.fullLocation = none) := by
  intro r hr
  simp only [process_data] at hr
  obtain ⟨j, r0, -, rfl⟩ := mem_processRowsFrom _ _ _ draws 0 t.rows r hr
  constructor
  · intro hcols
    have hl : decide ("Address" ∈ t.cols ∧ "City Or County" ∈ t.cols ∧
        "State" ∈ t.cols) = true := decide_eq_true hcols
    rw [hl, processRow_fullLocation, processRow_address, processRow_cityOrCounty,
      processRow_state]
    simp [rowLoc]
  · intro hncols
    have hl : decide ("Address" ∈ t.cols ∧ "City Or County" ∈ t.cols ∧
        "State" ∈ t.cols) = false := decide_eq_false hncols
    rw [hl, processRow_fullLocation]
    simp [rowLoc]

theorem full_location_format_witness :
    sampleProcessedRow.fullLocation = some "1 Main St, Springfield, IL, USA" :=
  ((full_location_format sampleTable sampleDraws
    sampleProcessedRow (by decide)).1 (by decide)).trans (by decide)

/-- C6 counterexample: with all three component columns present but the
address cell missing, the output `Full Location` is the partial string
`"nan, Springfield, IL, USA"`, not null as the claim requires. -/
theorem full_location_partial_string_counterexample :
    (∀ r ∈ nanAddressTable.rows, r.address = none) ∧
    (process_data nanAddressTable sampleDraws).rows.map Row.fullLocation =
      [some "nan, Springfield, IL, USA"] := by
  decide

/-- C7: the loader returns the parsed table when the chosen file reads
cleanly; on any read failure (missing file or malformed content) it returns
the empty table with the expected column schema instead of raising (the model
is a total function); and when the primary path does not exist it falls back
to the alternate known filename. -/
theorem load_fallback_and_empty_on_failure (fs : String → FileContent) :
    (∀ t : Table, fs (chosenPath fs) = FileContent.good t → load fs = t) ∧
    ((fs (chosenPath fs)).isGood = false → load fs = emptyExpectedTable) ∧
    (fs primaryPath = FileContent.missing →
      ∀ t : Table, fs altPath = FileContent.good t → load fs = t) := by
  refine ⟨?_, ?_, ?_⟩
  · intro t ht
    simp [load, ht]
  · intro hbad
    unfold load
    cases hx : fs (chosenPath fs) with
    | missing => rfl
    | malformed => rfl
    | good t => rw [hx] at hbad; simp [FileContent.isGood] at hbad
  · intro hp t ha
    have hcp : chosenPath fs = altPath := by
      unfold chosenPath
      rw [if_pos hp, if_neg (by rw [ha]; intro hh; cases hh)]
    simp [load, hcp, ha]

theorem load_fallback_and_empty_on_failure_witness :
    load fsFallback = sampleTable ∧ load fsAllMissing = emptyExpectedTable :=
  ⟨(load_fallback_and_empty_on_failure fsFallback).2.2 (by decide) sampleTable
    (by decide),
   (load_fallback_and_empty_on_failure fsAllMissing).2.1 (by decide)⟩

/-- C8: the geocode merge is a left join on id — assuming the response has at
most one row per id (the service's 1:1-or-1:0 contract), the enriched table
has exactly as many rows as the input, the original incidents are preserved in
order, and an incident matching no response row gets null coordinates rather
than being dropped. -/
theorem left_join_preserves_incidents (df : List Incident)
    (results : List GeocodeResult) (h : (results.map GeocodeResult.id).Nodup) :
    (leftJoin df results).length = df.length ∧
    (leftJoin df results).map MergedRow.incident = df ∧
    ∀ row ∈ leftJoin df results,
      (∀ g ∈ results, g.id ≠ row.incident.incidentId) →
      row.latitude = none ∧ row.longitude = none := by
  have hmap := leftJoin_map_incident results h df
  refine ⟨?_, hmap,
    fun row hrow hno => leftJoin_unmatched_null df results row hrow hno⟩
  calc (leftJoin df results).length
      = ((leftJoin df results).map MergedRow.incident).length :=
        (List.length_map _ _).symm
    _ = df.length := by rw [hmap]

theorem left_join_preserves_incidents_witness :
    (leftJoin sampleIncidents sampleResults).length = sampleIncidents.length ∧
    (leftJoin sampleIncidents sampleResults).map MergedRow.incident =
      sampleIncidents :=
  ⟨(left_join_preserves_incidents sampleIncidents sampleResults (by decide)).1,
   (left_join_preserves_incidents sampleIncidents sampleResults (by decide)).2.1⟩

/-- C9 (amended): `process_data` is idempotent up to the random coordinate
draws — re-processing an already-processed table with fresh draws `d2` gives
exactly the single-pass result under `d2` (every derived column is recomputed
identically), and two processing passes differ at most in the `latitude` and
`longitude` columns. -/
theorem process_data_idempotent_up_to_draws (t : Table) (d1 d2 : Nat → Draw) :
    process_data (process_data t d1) d2 = process_data t d2 ∧
    (process_data t d1).rows.map stripCoords =
      (process_data t d2).rows.map stripCoords := by
  constructor
  · simp only [process_data]
    have e1 : decide ("Incident Date" ∈ processCols t.cols) =
        decide ("Incident Date" ∈ t.cols) := by
      rw [decide_eq_decide]; exact incidentDate_mem_processCols
    have e2 : decide ("Victims Killed" ∈ processCols t.cols ∧
        "Victims Injured" ∈ processCols t.cols) =
        decide ("Victims Killed" ∈ t.cols ∧ "Victims Injured" ∈ t.cols) := by
      rw [decide_eq_decide]
      exact and_congr killed_mem_processCols injured_mem_processCols
    have e3 : decide ("Address" ∈ processCols t.cols ∧
        "City Or County" ∈ processCols t.cols ∧ "State" ∈ processCols t.cols) =
        decide ("Address" ∈ t.cols ∧ "City Or County" ∈ t.cols ∧
          "State" ∈ t.cols) := by
      rw [decide_eq_decide]
      exact and_congr address_mem_processCols
        (and_congr city_mem_processCols state_mem_processCols)
    rw [e1, e2, e3, processCols_processCols, processRowsFrom_processRowsFrom]
  · simp only [process_data]
    exact processRowsFrom_stripCoords _ _ _ d1 d2 0 t.rows

/-- C9 counterexample: re-running `process_data` on its own output is not the
identity — the coordinate columns are drawn afresh on every call, so a second
pass with different random draws changes the table. -/
theorem process_data_not_idempotent_counterexample :
    process_data (process_data sampleTable sampleDraws) otherDraws ≠
      process_data sampleTable sampleDraws := by
  decide

/-- C10: under the ranges `np.random.uniform` guarantees for each branch of
`mock_geocode`, every output row's coordinates lie in the fixed US bounding
box: latitude in [25, 49] and longitude in [-125, -65]. -/
theorem mock_coordinates_in_us_box (t : Table) (draws : Nat → Draw)
    (hv : ∀ i, (draws i).valid) :
    ∀ r ∈ (process_data t draws).rows,
      ∃ la lo, r.latitude = some la ∧ r.longitude = some lo ∧
        25 ≤ la ∧ la ≤ 49 ∧ -125 ≤ lo ∧ lo ≤ -65 := by
  intro r hr
  simp only [process_data] at hr
  obtain ⟨j, r0, -, rfl⟩ := mem_processRowsFrom _ _ _ draws 0 t.rows r hr
  obtain ⟨b1, b2, b3, b4⟩ := mockGeocode_in_box
    (rowLoc (decide ("Address" ∈ t.cols ∧ "City Or County" ∈ t.cols ∧
      "State" ∈ t.cols)) r0) (draws j) (hv j)
  exact ⟨_, _, processRow_latitude _ _ _ _ _, processRow_longitude _ _ _ _ _,
    b1, b2, b3, b4⟩

theorem mock_coordinates_in_us_box_witness :
    ∃ la lo, sampleProcessedRow.latitude = some la ∧
      sampleProcessedRow.longitude = some lo ∧
      25 ≤ la ∧ la ≤ 49 ∧ -125 ≤ lo ∧ lo ≤ -65 :=
  mock_coordinates_in_us_box sampleTable sampleDraws
    (fun _ => (by decide : sampleDraw.valid)) sampleProcessedRow (by decide)
